import Mathlib

/-!
Shallow embedding of the Other Us FastAPI backend (src/backend/main.py):
the authentication and identity subsystem. Redis is modelled as an explicit
`Store` value threaded through each handler; handlers are pure functions
from (configuration, clock, request data, store) to (store, response).
Nondeterministic inputs of the real code (generated UUIDs, bcrypt salts,
random nonces, the wall clock, provider HTTP responses) are parameters.
Time is an abstract `Nat` clock; ISO timestamps are modelled as the clock
value rendered to a string.
-/

namespace OtherUs

/-- Python's `str.lower()` for the ASCII range (all emails and keys in
this system are ASCII). -/
def lowerChar (c : Char) : Char :=
  if 'A' ≤ c ∧ c ≤ 'Z' then Char.ofNat (c.toNat + 32) else c

def lowerStr (s : String) : String := ⟨s.data.map lowerChar⟩

/-- `email.split("@")[0]`: the prefix before the first `@` (the whole
string when there is none). -/
def takeBeforeAt (s : String) : String :=
  ⟨s.data.takeWhile (fun c => !(c == '@'))⟩

def digitChar (d : Nat) : Char := Char.ofNat (48 + d)

def natDigitsAux : Nat → Nat → List Char
  | 0, _ => []
  | fuel+1, n => if n < 10 then [digitChar n]
                 else natDigitsAux fuel (n / 10) ++ [digitChar (n % 10)]

/-- Decimal rendering of a number (used for the abstract clock where the
code renders an ISO timestamp, and for GitHub's numeric user id). -/
def natStr (n : Nat) : String := ⟨natDigitsAux (n + 1) n⟩

/-- Python's `str.strip()`. -/
def pyStrip (s : String) : String :=
  ⟨((s.data.dropWhile Char.isWhitespace).reverse.dropWhile
      Char.isWhitespace).reverse⟩

/-- `" ".join(fields)`. -/
def joinWords (l : List String) : String :=
  ⟨((l.map String.data).intersperse [' ']).flatten⟩

/-- Association-list lookup, modelling `r.get(key)` on string keys. -/
def alookup {α : Type} : List (String × α) → String → Option α
  | [], _ => none
  | (k', v) :: t, k => if k' = k then some v else alookup t k

/-- Association-list overwrite, modelling `r.set(key, v)`. -/
def aset {α : Type} (l : List (String × α)) (k : String) (v : α) :
    List (String × α) :=
  (k, v) :: l.filter (fun p => !(p.1 == k))

/-- Association-list delete, modelling `r.delete(key)`. -/
def adel {α : Type} (l : List (String × α)) (k : String) :
    List (String × α) :=
  l.filter (fun p => !(p.1 == k))

instance {ε α : Type} [DecidableEq ε] [DecidableEq α] :
    DecidableEq (Except ε α) := fun x y =>
  match x, y with
  | .ok a, .ok b =>
    if h : a = b then isTrue (by rw [h])
    else isFalse (by intro he; cases he; exact h rfl)
  | .error a, .error b =>
    if h : a = b then isTrue (by rw [h])
    else isFalse (by intro he; cases he; exact h rfl)
  | .ok _, .error _ => isFalse (by intro he; cases he)
  | .error _, .ok _ => isFalse (by intro he; cases he)

/-- The user record exactly as built by the backend (a JSON dict with
these 13 fields; see `register`, `google_callback`, `github_callback`). -/
structure UserRecord where
  user_id : String
  email : String
  password_hash : String
  display_name : String
  bio : String
  interests : String
  avatar_url : String
  location : String
  website : String
  provider : String
  oauth_id : String
  created_at : String
  updated_at : String
deriving DecidableEq, Repr

/-- The Redis keyspace used by the backend: `user:<id>`, `email_to_id:<email>`,
`users:all`, and `oauth_state:<nonce>` (the latter with its absolute expiry
instant, modelling SETEX's TTL). -/
structure Store where
  users : List (String × UserRecord)
  emailToId : List (String × String)
  allIds : List String
  oauthStates : List (String × (String × Nat))
deriving DecidableEq, Repr

/-- `redis_set_user`: writes `user:<id>` and the `email_to_id` index entry. -/
def redis_set_user (s : Store) (user_id : String) (data : UserRecord) :
    Store :=
  { s with users := aset s.users user_id data,
           emailToId := aset s.emailToId (lowerStr data.email) user_id }

/-- `redis_get_user`. -/
def redis_get_user (s : Store) (user_id : String) : Option UserRecord :=
  alookup s.users user_id

/-- `redis_get_user_by_email`: index lookup then record lookup; a falsy
(missing or empty-string) index value yields `none`. -/
def redis_get_user_by_email (s : Store) (email : String) :
    Option UserRecord :=
  match alookup s.emailToId (lowerStr email) with
  | none => none
  | some uid => if uid = "" then none else redis_get_user s uid

/-- `redis_add_to_index`: SADD to `users:all`. -/
def redis_add_to_index (s : Store) (user_id : String) : Store :=
  { s with allIds := user_id :: s.allIds.filter (fun i => !(i == user_id)) }

/-- An abstract keyed MAC standing in for HMAC over the serialized JWT
payload. The claims proved below need no cryptographic assumption: they
only compare a token's tag against the recomputed one. -/
def mac (secret : String) (subClaim : Option String) (exp : Nat) : Nat :=
  ((secret ++ "." ++ subClaim.getD "\x00" ++ "." ++ natStr exp).data).foldl
    (fun a c => a * 257 + c.toNat) 7

/-- A JWT as relevant to this backend: a payload carrying an optional
`sub` claim and an `exp` instant, plus a signature tag. -/
structure Token where
  sub : Option String
  exp : Nat
  sig : Nat
deriving DecidableEq, Repr

/-- `create_access_token`: encodes `{sub, exp = now + ttl}` signed with the
server secret (`jwt.encode`). All call sites pass `{"sub": user_id}`; the
ttl is the configured expiry unless a delta is passed. -/
def create_access_token (secret : String) (now ttl : Nat) (sub : String) :
    Token :=
  { sub := some sub, exp := now + ttl, sig := mac secret (some sub) (now + ttl) }

/-- `verify_token`: `jwt.decode` checks the signature and the expiry
claim — python-jose raises `ExpiredSignatureError` (zero leeway) only
when `exp < now`, so a token is still accepted at the instant
`now = exp` — then returns `payload.get("sub")`; any `JWTError` yields
`None`. -/
def verify_token (secret : String) (now : Nat) (t : Token) : Option String :=
  if t.sig = mac secret t.sub t.exp ∧ ¬ t.exp < now then t.sub else none

/-- Outcome of the `get_current_user` dependency: either the loaded user
record, or an `HTTPException` with status code, detail and headers. -/
inductive GuardResult where
  | ok (user : UserRecord)
  | err (statusCode : Nat) (detail : String) (headers : List (String × String))
deriving DecidableEq, Repr

/-- `get_current_user`: the Session Guard. A missing bearer token is
rejected by `OAuth2PasswordBearer` (401, challenge header); a token whose
verification fails, or whose subject is falsy (`if not user_id`), is
rejected 401 with a challenge header; a verified subject with no stored
record is rejected 404; otherwise the full record is returned. -/
def get_current_user (secret : String) (now : Nat) (s : Store)
    (tok : Option Token) : GuardResult :=
  match tok with
  | none => .err 401 "Not authenticated" [("WWW-Authenticate", "Bearer")]
  | some t =>
    match verify_token secret now t with
    | none => .err 401 "Invalid or expired token"
        [("WWW-Authenticate", "Bearer")]
    | some user_id =>
      if user_id = "" then
        .err 401 "Invalid or expired token" [("WWW-Authenticate", "Bearer")]
      else
        match redis_get_user s user_id with
        | none => .err 404 "User not found" []
        | some user => .ok user

/-- `UserCreate` request body of `/auth/register`. -/
structure UserCreate where
  email : String
  password : String
  display_name : String
  bio : Option String
  interests : Option String
deriving DecidableEq, Repr

/-- `TokenResponse` envelope returned by register and login. -/
structure TokenResponse where
  access_token : Token
  token_type : String
  user_id : String
  display_name : String
  email : String
deriving DecidableEq, Repr

/-- `register` (`POST /auth/register`): rejects an already-indexed email
with 400, otherwise persists a fresh record and returns a token envelope.
The generated UUID and the bcrypt hash are the `newId`/`hashed`
parameters. -/
def register (secret : String) (ttl now : Nat) (newId hashed : String)
    (p : UserCreate) (s : Store) : Store × Except (Nat × String) TokenResponse :=
  match redis_get_user_by_email s p.email with
  | some _ => (s, .error (400, "Email already registered"))
  | none =>
    let u : UserRecord :=
      { user_id := newId, email := lowerStr p.email, password_hash := hashed,
        display_name := p.display_name, bio := p.bio.getD "",
        interests := p.interests.getD "", avatar_url := "", location := "",
        website := "", provider := "email", oauth_id := "",
        created_at := natStr now, updated_at := natStr now }
    let s1 := redis_add_to_index (redis_set_user s newId u) newId
    (s1, .ok { access_token := create_access_token secret now ttl newId,
               token_type := "bearer", user_id := newId,
               display_name := p.display_name, email := lowerStr p.email })

/-- Store well-formedness, as maintained by the backend's write paths:
every stored record is reachable from the email index under its own
lowercased email, and index values (generated UUIDs) are never the empty
string. -/
def Wf (s : Store) : Prop :=
  (∀ uid u, alookup s.users uid = some u →
    alookup s.emailToId (lowerStr u.email) = some uid)
  ∧ (∀ e uid, alookup s.emailToId e = some uid → uid ≠ "")

/-- `/auth/google/login` and `/auth/github/login` nonce step:
`r.setex(f"oauth_state:{state}", 600, provider)`. The expiry is stored as
an absolute instant. -/
def oauth_begin (s : Store) (nonce provider : String) (now : Nat) : Store :=
  { s with oauthStates := aset s.oauthStates nonce (provider, now + 600) }

/-- Redis GET on `oauth_state:<nonce>`, honouring the SETEX TTL: the entry
is visible only strictly before its expiry instant. -/
def redis_get_state (s : Store) (nonce : String) (now : Nat) :
    Option String :=
  match alookup s.oauthStates nonce with
  | some pv => if now < pv.2 then some pv.1 else none
  | none => none

/-- Redis DELETE on `oauth_state:<nonce>`. -/
def redis_delete_state (s : Store) (nonce : String) : Store :=
  { s with oauthStates := adel s.oauthStates nonce }

/-- Google userinfo payload fields used by the callback (each `.get` with
its default). `name := none` models an absent `name` key. -/
structure GoogleUser where
  email : String
  sub : String
  name : Option String
  picture : String
deriving DecidableEq, Repr

/-- `google_callback` (`GET /auth/google/callback`). Provider network
responses are parameters: the status of the code-exchange POST, the status
of the userinfo GET, and the parsed userinfo body. A fresh UUID for the
create path is `newId`. The success value is the redirect's JWT. -/
def google_callback (secret : String) (ttl now : Nat) (nonce : String)
    (tokenStatus userinfoStatus : Nat) (guser : GoogleUser) (newId : String)
    (s : Store) : Store × Except (Nat × String) Token :=
  match redis_get_state s nonce now with
  | none => (s, .error (400, "Invalid OAuth state"))
  | some _ =>
    let s1 := redis_delete_state s nonce
    if tokenStatus ≠ 200 then
      (s1, .error (400, "Failed to exchange Google code"))
    else if userinfoStatus ≠ 200 then
      (s1, .error (400, "Failed to get Google user info"))
    else
      let email := lowerStr guser.email
      let display_name := guser.name.getD ((email.splitOn "@").headD "")
      let avatar_url := guser.picture
      match redis_get_user_by_email s1 email with
      | none =>
        let u : UserRecord :=
          { user_id := newId, email := email, password_hash := "",
            display_name := display_name, bio := "", interests := "",
            avatar_url := avatar_url, location := "", website := "",
            provider := "google", oauth_id := guser.sub,
            created_at := natStr now, updated_at := natStr now }
        (redis_add_to_index (redis_set_user s1 newId u) newId,
         .ok (create_access_token secret now ttl newId))
      | some user =>
        if avatar_url ≠ "" ∧ user.avatar_url ≠ avatar_url then
          (redis_set_user s1 user.user_id
            { user with avatar_url := avatar_url,
                        updated_at := natStr now },
           .ok (create_access_token secret now ttl user.user_id))
        else
          (s1, .ok (create_access_token secret now ttl user.user_id))

/-- One entry of GitHub's `/user/emails` response. -/
structure GhEmailEntry where
  email : String
  primary : Bool
  verified : Bool
deriving DecidableEq, Repr

/-- GitHub `/user` profile fields used by the callback. `email`, `name`,
`bio`, `location`, `blog` are strings with `""` standing for an absent or
null JSON value (the code coerces those with `.get(..., "")`/`or`);
`id := none` models an absent `id` key; `login := none` an absent
`login` key. -/
structure GhUser where
  id : Option Nat
  email : String
  name : String
  login : Option String
  avatar_url : String
  bio : String
  location : String
  blog : String
deriving DecidableEq, Repr

/-- GitHub email resolution (main.py lines 407–416): the loop selects the
first emails-list entry flagged primary and verified (lowercased, `""`
when there is none); the code then re-tests `if not email`, so an empty
selection falls through to the profile's truthy `email` field, and a
still-empty result to the placeholder `gh_<id>@github.noemail` (with a
fresh UUID hex when even the numeric id is absent). -/
def resolve_github_email (emails : List GhEmailEntry) (gh : GhUser)
    (uuidHex : String) : String :=
  let email :=
    match emails.find? (fun e => e.primary && e.verified) with
    | some e => lowerStr e.email
    | none => ""
  let email := if email = "" ∧ gh.email ≠ "" then lowerStr gh.email else email
  if email = "" then
    "gh_" ++ (match gh.id with | some n => natStr n | none => uuidHex)
      ++ "@github.noemail"
  else email

/-- `github_callback` (`GET /auth/github/callback`). Provider responses
are parameters: code-exchange status and its `access_token` field (`""`
standing for absent/falsy), the `/user` response status and parsed body,
and the `/user/emails` response status and parsed body. Faithful to the
source, `userStatus` is never inspected: the profile body is used
unconditionally. -/
def github_callback (secret : String) (ttl now : Nat) (nonce : String)
    (tokenStatus : Nat) (accessToken : String) (userStatus : Nat)
    (ghUser : GhUser) (emailStatus : Nat) (emailsBody : List GhEmailEntry)
    (uuidHex newId : String) (s : Store) :
    Store × Except (Nat × String) Token :=
  match redis_get_state s nonce now with
  | none => (s, .error (400, "Invalid OAuth state"))
  | some _ =>
    let s1 := redis_delete_state s nonce
    if tokenStatus ≠ 200 then
      (s1, .error (400, "Failed to exchange GitHub code"))
    else if accessToken = "" then
      (s1, .error (400, "No access token from GitHub"))
    else
      let emails := if emailStatus = 200 then emailsBody else []
      let email := resolve_github_email emails ghUser uuidHex
      let oauth_id := match ghUser.id with | some n => natStr n | none => ""
      let display_name :=
        if ghUser.name ≠ "" then ghUser.name
        else ghUser.login.getD ((email.splitOn "@").headD "")
      match redis_get_user_by_email s1 email with
      | none =>
        let u : UserRecord :=
          { user_id := newId, email := email, password_hash := "",
            display_name := display_name, bio := ghUser.bio, interests := "",
            avatar_url := ghUser.avatar_url, location := ghUser.location,
            website := ghUser.blog, provider := "github",
            oauth_id := oauth_id,
            created_at := natStr now, updated_at := natStr now }
        (redis_add_to_index (redis_set_user s1 newId u) newId,
         .ok (create_access_token secret now ttl newId))
      | some user =>
        (redis_set_user s1 user.user_id
          { user with avatar_url := ghUser.avatar_url,
                      updated_at := natStr now },
         .ok (create_access_token secret now ttl user.user_id))

/-- `verify_password`: wraps `bcrypt.checkpw` — abstracted as a fallible
`checkpw` function that may fail (raise) on a malformed or unparseable
hash — in `try/except Exception: return False`. -/
def verify_password (checkpw : String → String → Except String Bool)
    (plain hashed : String) : Bool :=
  match checkpw plain hashed with
  | .ok b => b
  | .error _ => false

/-- `login` (`POST /auth/token`): email lookup then password check; both
failure modes collapse to the same 401. -/
def login (checkpw : String → String → Except String Bool)
    (secret : String) (ttl now : Nat) (username password : String)
    (s : Store) : Except (Nat × String) TokenResponse :=
  match redis_get_user_by_email s username with
  | none => .error (401, "Incorrect email or password")
  | some user =>
    if verify_password checkpw password user.password_hash then
      .ok { access_token := create_access_token secret now ttl user.user_id,
            token_type := "bearer", user_id := user.user_id,
            display_name := user.display_name, email := user.email }
    else .error (401, "Incorrect email or password")

/-- Rendering of a token into the JSON string field it occupies in a
response body (the encoded JWT). -/
def Token.render (t : Token) : String :=
  t.sub.getD "" ++ "." ++ natStr t.exp ++ "." ++ natStr t.sig

/-- The JSON object a `TokenResponse` serializes to. -/
def TokenResponse.toAssoc (tr : TokenResponse) : List (String × String) :=
  [("access_token", tr.access_token.render), ("token_type", tr.token_type),
   ("user_id", tr.user_id), ("display_name", tr.display_name),
   ("email", tr.email)]

/-- The JSON object a stored user record serializes to: all 13 fields, in
the order the backend builds them. -/
def UserRecord.toAssoc (u : UserRecord) : List (String × String) :=
  [("user_id", u.user_id), ("email", u.email),
   ("password_hash", u.password_hash), ("display_name", u.display_name),
   ("bio", u.bio), ("interests", u.interests), ("avatar_url", u.avatar_url),
   ("location", u.location), ("website", u.website),
   ("provider", u.provider), ("oauth_id", u.oauth_id),
   ("created_at", u.created_at), ("updated_at", u.updated_at)]

/-- `public_user_view`: only the public fields. -/
def public_user_view (u : UserRecord) : List (String × String) :=
  [("user_id", u.user_id), ("display_name", u.display_name), ("bio", u.bio),
   ("interests", u.interests), ("avatar_url", u.avatar_url),
   ("location", u.location), ("website", u.website),
   ("provider", u.provider), ("created_at", u.created_at)]

/-- `GET /users/me`: the authenticated record with `password_hash`
filtered out (`{k: v for k, v in current_user.items() if k != "password_hash"}`). -/
def get_my_profile (u : UserRecord) : List (String × String) :=
  u.toAssoc.filter (fun p => !(p.1 == "password_hash"))

/-- `UserUpdate` request body of `PUT /users/me`. -/
structure UserUpdate where
  display_name : Option String
  bio : Option String
  interests : Option String
  avatar_url : Option String
  location : Option String
  website : Option String
deriving DecidableEq, Repr

/-- The field-by-field merge in `update_my_profile` (each `if payload.x is
not None`), plus the `updated_at` refresh. -/
def apply_user_update (p : UserUpdate) (u : UserRecord) (now : Nat) :
    UserRecord :=
  { u with
    display_name := p.display_name.getD u.display_name,
    bio := p.bio.getD u.bio,
    interests := p.interests.getD u.interests,
    avatar_url := p.avatar_url.getD u.avatar_url,
    location := p.location.getD u.location,
    website := p.website.getD u.website,
    updated_at := natStr now }

/-- `PUT /users/me`: persists the merged record, returns it minus
`password_hash`. -/
def update_my_profile (p : UserUpdate) (cur : UserRecord) (now : Nat)
    (s : Store) : Store × List (String × String) :=
  let updated := apply_user_update p cur now
  (redis_set_user s cur.user_id updated,
   updated.toAssoc.filter (fun q => !(q.1 == "password_hash")))

/-- `GET /users/{user_id}`. -/
def get_user_profile (s : Store) (user_id : String) :
    Except (Nat × String) (List (String × String)) :=
  match redis_get_user s user_id with
  | none => .error (404, "User not found")
  | some u => .ok (public_user_view u)

/-- Python's substring operator `needle in hay` on the character lists. -/
def strContains (hay needle : List Char) : Bool :=
  hay.tails.any (fun t => needle.isPrefixOf t)

/-- `redis_search_users`: scan of the directory set, substring match over
the concatenated searchable fields, public view of each hit. -/
def redis_search_users (s : Store) (query : String) :
    List (List (String × String)) :=
  s.allIds.filterMap (fun uid =>
    match redis_get_user s uid with
    | none => none
    | some u =>
      let searchable := lowerStr (joinWords
        [u.display_name, u.email, u.bio, u.interests, u.location])
      if strContains searchable.data (lowerStr query).data then
        some (public_user_view u)
      else none)

/-- `GET /users/search/query`: length guard, search, self-exclusion. -/
def search_users (q : String) (cur : UserRecord) (s : Store) :
    Except (Nat × String) (List (List (String × String)) × Nat) :=
  if (pyStrip q).length < 2 then
    .error (400, "Query must be at least 2 characters")
  else
    let results := (redis_search_users s (pyStrip q)).filter
      (fun v => !(alookup v "user_id" == some cur.user_id))
    .ok (results, results.length)

/-- A concrete user record for witnesses, with the given identity fields
and fixed profile fields. -/
def mkUser (uid email pw : String) : UserRecord :=
  { user_id := uid, email := email, password_hash := pw,
    display_name := "Demo", bio := "bio", interests := "music",
    avatar_url := "http://a/x.png", location := "Berlin",
    website := "http://w", provider := "email", oauth_id := "",
    created_at := "10", updated_at := "10" }

/-- A one-user store: `u1` registered under `a@b.com`. -/
def demoStore : Store :=
  { users := [("u1", mkUser "u1" "a@b.com" "h")],
    emailToId := [("a@b.com", "u1")],
    allIds := ["u1"],
    oauthStates := [] }

/-- The empty store. -/
def emptyStore : Store :=
  { users := [], emailToId := [], allIds := [], oauthStates := [] }

theorem lowerStr_eq_empty_iff (s : String) : lowerStr s = "" ↔ s = "" := by
  cases s with
  | mk l =>
    constructor
    · intro h
      have hd : (lowerStr (String.mk l)).data = "".data := by rw [h]
      simp only [lowerStr] at hd
      have hl : l = [] := List.map_eq_nil_iff.mp hd
      rw [hl]
    · intro h
      rw [h]
      decide

theorem alookup_filter_ne {α : Type} (l : List (String × α)) (k k' : String)
    (h : k' ≠ k) :
    alookup (l.filter (fun p => !(p.1 == k))) k' = alookup l k' := by
  induction l with
  | nil => rfl
  | cons a t ih =>
    obtain ⟨ak, av⟩ := a
    by_cases hak : ak = k
    · have hb : (ak == k) = true := beq_iff_eq.mpr hak
      have hak' : ak ≠ k' := fun he => h (he ▸ hak ▸ rfl)
      simp [List.filter_cons, hb, alookup, hak', ih]
    · have hb : (ak == k) = false := beq_eq_false_iff_ne.mpr hak
      by_cases hak' : ak = k'
      · simp [List.filter_cons, hb, alookup, hak', h]
      · simp [List.filter_cons, hb, alookup, hak', ih]

theorem alookup_aset_self {α : Type} (l : List (String × α)) (k : String)
    (v : α) : alookup (aset l k v) k = some v := by
  simp [alookup, aset]

theorem alookup_aset_ne {α : Type} (l : List (String × α)) (k k' : String)
    (v : α) (h : k' ≠ k) : alookup (aset l k v) k' = alookup l k' := by
  have hkk' : k ≠ k' := Ne.symm h
  simp only [aset, alookup, hkk', if_false]
  exact alookup_filter_ne l k k' h

theorem alookup_adel_self {α : Type} (l : List (String × α)) (k : String) :
    alookup (adel l k) k = none := by
  induction l with
  | nil => rfl
  | cons a t ih =>
    obtain ⟨ak, av⟩ := a
    by_cases hak : ak = k
    · have hb : (ak == k) = true := beq_iff_eq.mpr hak
      simpa [adel, List.filter_cons, hb] using ih
    · have hb : (ak == k) = false := beq_eq_false_iff_ne.mpr hak
      simpa [adel, List.filter_cons, hb, alookup, hak] using ih

theorem alookup_adel_ne {α : Type} (l : List (String × α)) (k k' : String)
    (h : k' ≠ k) : alookup (adel l k) k' = alookup l k' :=
  alookup_filter_ne l k k' h

theorem alookup_eq_some_mem {α : Type} (l : List (String × α)) (k : String)
    (v : α) (h : alookup l k = some v) : (k, v) ∈ l := by
  induction l with
  | nil => simp [alookup] at h
  | cons a t ih =>
    obtain ⟨ak, av⟩ := a
    by_cases hak : ak = k
    · simp only [alookup, hak, if_pos] at h
      cases h
      exact hak ▸ List.mem_cons_self _ _
    · simp only [alookup, hak, if_false] at h
      exact List.mem_cons_of_mem _ (ih h)

/-- Counterexample to claim C1 as stated: at exactly issuance + ttl
(t = 130 for a token issued at 100 with ttl 30) the program still accepts
the token — python-jose raises `ExpiredSignatureError` only when
`exp < now` — returning the subject where the claim requires Invalid. -/
theorem token_expiry_boundary_counterexample :
    verify_token "k" 130 (create_access_token "k" 100 30 "alice")
      = some "alice"
    ∧ 100 + 30 ≤ 130 := by
  refine ⟨by decide, by decide⟩

/-- Claim C1 (amended): token round-trip. For every subject and ttl > 0,
a token issued at `t0` verifies to its subject at any time up to and
including `t0 + ttl` (python-jose treats a token as expired only when
`exp < now`, so the boundary instant is still accepted); verification
returns `none` (Invalid) at any time strictly after `t0 + ttl`, and for
any token whose signature has been altered; and `verify_token` is a
total function (never raises). -/
theorem token_roundtrip (secret sub : String) (ttl t0 t : Nat)
    (httl : 0 < ttl) :
    (t ≤ t0 + ttl →
      verify_token secret t (create_access_token secret t0 ttl sub) = some sub)
    ∧ (t0 + ttl < t →
      verify_token secret t (create_access_token secret t0 ttl sub) = none)
    ∧ (∀ sig', sig' ≠ (create_access_token secret t0 ttl sub).sig →
      verify_token secret t
        { create_access_token secret t0 ttl sub with sig := sig' } = none) := by
  refine ⟨fun hle => ?_, fun hgt => ?_, fun sig' hne => ?_⟩
  · have hnl : ¬ (t0 + ttl < t) := by omega
    simp [verify_token, create_access_token, hnl]
  · simp [verify_token, create_access_token, hgt]
  · simp only [verify_token, create_access_token]
    simp only [ite_eq_right_iff]
    intro ⟨h1, _⟩
    exact (hne (by simpa [create_access_token] using h1)).elim

/-- Witness for C1 at secret "k", subject "alice", ttl 30, issued at 100:
verification succeeds at 130 (the boundary instant) and fails at 131. -/
theorem token_roundtrip_witness :
    verify_token "k" 130 (create_access_token "k" 100 30 "alice") =
      some "alice"
    ∧ verify_token "k" 131 (create_access_token "k" 100 30 "alice") = none :=
  ⟨(token_roundtrip "k" "alice" 30 100 130 (by decide)).1 (by decide),
   (token_roundtrip "k" "alice" 30 100 131 (by decide)).2.1 (by decide)⟩

/-- Claim C9: password verification is total and fail-closed. For every
plaintext, hash string and bcrypt behaviour, `verify_password` returns a
boolean (it is a total function); whenever the underlying `checkpw`
raises (malformed or empty hash, internal error), the result is `false`;
whenever `checkpw` returns a boolean, that boolean is passed through —
so a failure is indistinguishable from a wrong password. -/
theorem verify_password_fail_closed
    (checkpw : String → String → Except String Bool)
    (plain hashed : String) :
    (verify_password checkpw plain hashed = true
      ∨ verify_password checkpw plain hashed = false)
    ∧ (∀ e, checkpw plain hashed = .error e →
        verify_password checkpw plain hashed = false)
    ∧ (∀ b, checkpw plain hashed = .ok b →
        verify_password checkpw plain hashed = b) := by
  refine ⟨?_, fun e he => ?_, fun b hb => ?_⟩
  · cases h : verify_password checkpw plain hashed
    · exact Or.inr rfl
    · exact Or.inl rfl
  · simp [verify_password, he]
  · simp [verify_password, hb]

/-- Witness for C9: a `checkpw` that raises "Invalid salt" on a malformed
hash yields `false`. -/
theorem verify_password_fail_closed_witness :
    verify_password (fun _ _ => .error "Invalid salt") "pw" "nothash"
      = false :=
  (verify_password_fail_closed (fun _ _ => .error "Invalid salt")
    "pw" "nothash").2.1 "Invalid salt" rfl

/-- Counterexample to claim C2 as stated: a cryptographically valid,
unexpired token whose subject is the empty string, with no stored record
for that subject, is rejected 401 (by the guard's falsy `if not user_id`
check), not 404 as the claim requires for every valid token whose
subject has no stored record. -/
theorem session_guard_empty_subject_counterexample :
    verify_token "k" 0 { sub := some "", exp := 5, sig := mac "k" (some "") 5 }
      = some ""
    ∧ redis_get_user emptyStore "" = none
    ∧ get_current_user "k" 0 emptyStore
        (some { sub := some "", exp := 5, sig := mac "k" (some "") 5 })
      = .err 401 "Invalid or expired token" [("WWW-Authenticate", "Bearer")]
    ∧ get_current_user "k" 0 emptyStore
        (some { sub := some "", exp := 5, sig := mac "k" (some "") 5 })
      ≠ .err 404 "User not found" [] := by
  refine ⟨by decide, by decide, by decide, by decide⟩

/-- Claim C2 (amended): Session Guard failure modes. A missing bearer
token, a token failing verification (bad signature, expired, absent
subject), or a verified token with an empty subject, each fail with 401
and a `WWW-Authenticate` challenge header; a verified token with a
non-empty subject that has no stored record fails with 404; a verified
token with a non-empty subject and a stored record yields that full
record. (Amendment: the empty-subject case is a 401, not a 404.) -/
theorem session_guard_cases (secret : String) (now : Nat) (s : Store)
    (tok : Option Token) :
    (tok = none →
      get_current_user secret now s tok =
        .err 401 "Not authenticated" [("WWW-Authenticate", "Bearer")])
    ∧ (∀ t, tok = some t →
      (verify_token secret now t = none ∨ verify_token secret now t = some "") →
      get_current_user secret now s tok =
        .err 401 "Invalid or expired token" [("WWW-Authenticate", "Bearer")])
    ∧ (∀ t uid, tok = some t → verify_token secret now t = some uid →
      uid ≠ "" → redis_get_user s uid = none →
      get_current_user secret now s tok = .err 404 "User not found" [])
    ∧ (∀ t uid u, tok = some t → verify_token secret now t = some uid →
      uid ≠ "" → redis_get_user s uid = some u →
      get_current_user secret now s tok = .ok u) := by
  refine ⟨fun h => by rw [h]; rfl, fun t ht hv => ?_,
    fun t uid ht hv hne hn => ?_, fun t uid u ht hv hne hu => ?_⟩
  · subst ht
    rcases hv with hv | hv <;> simp [get_current_user, hv]
  · subst ht
    simp [get_current_user, hv, hne, hn]
  · subst ht
    simp [get_current_user, hv, hne, hu]

/-- Witness for C2: a token issued for `u1` loads the full `u1` record
from `demoStore`; an expired one is rejected 401. -/
theorem session_guard_cases_witness :
    get_current_user "k" 10 demoStore
      (some (create_access_token "k" 10 30 "u1"))
      = .ok (mkUser "u1" "a@b.com" "h")
    ∧ get_current_user "k" 50 demoStore
      (some (create_access_token "k" 10 30 "u1"))
      = .err 401 "Invalid or expired token" [("WWW-Authenticate", "Bearer")] :=
  ⟨(session_guard_cases "k" 10 demoStore
      (some (create_access_token "k" 10 30 "u1"))).2.2.2
      (create_access_token "k" 10 30 "u1") "u1" (mkUser "u1" "a@b.com" "h")
      rfl (by decide) (by decide) (by decide),
   (session_guard_cases "k" 50 demoStore
      (some (create_access_token "k" 10 30 "u1"))).2.1
      (create_access_token "k" 10 30 "u1") rfl (Or.inl (by decide))⟩

/-- `demoStore` satisfies the store invariant. -/
theorem demoStore_wellformed : Wf demoStore := by
  constructor
  · intro uid u h
    have hm := alookup_eq_some_mem _ _ _ h
    simp only [demoStore, List.mem_singleton] at hm
    rw [Prod.ext_iff] at hm
    obtain ⟨h1, h2⟩ := hm
    subst h1
    subst h2
    decide
  · intro e uid h
    have hm := alookup_eq_some_mem _ _ _ h
    simp only [demoStore, List.mem_singleton] at hm
    rw [Prod.ext_iff] at hm
    obtain ⟨h1, h2⟩ := hm
    subst h2
    decide

/-- Claim C3: duplicate registration. In every well-formed store in which
some record is indexed under a lowercase email, a registration whose email
lowercases to it fails with 400 "Email already registered", the store —
records, email index and directory set — is returned unchanged, and
exactly one record with that email exists afterwards. -/
theorem register_email_taken (secret : String) (ttl now : Nat)
    (newId hashed : String) (p : UserCreate) (s : Store) (uid : String)
    (u : UserRecord) (hwf : Wf s)
    (hidx : alookup s.emailToId (lowerStr p.email) = some uid)
    (hrec : alookup s.users uid = some u)
    (hmail : lowerStr u.email = lowerStr p.email) :
    register secret ttl now newId hashed p s =
      (s, .error (400, "Email already registered"))
    ∧ (∃! w, ∃ v, alookup s.users w = some v
        ∧ lowerStr v.email = lowerStr p.email) := by
  have huid : uid ≠ "" := hwf.2 _ _ hidx
  have hbe : redis_get_user_by_email s p.email = some u := by
    simp [redis_get_user_by_email, hidx, huid, redis_get_user, hrec]
  constructor
  · simp [register, hbe]
  · refine ⟨uid, ⟨u, hrec, hmail⟩, ?_⟩
    rintro w' ⟨v', hrec', hmail'⟩
    have h1 := hwf.1 w' v' hrec'
    rw [hmail', hidx] at h1
    exact ((Option.some.injEq _ _).mp h1).symm

/-- Witness for C3: registering `A@B.com` against `demoStore` (which
holds `a@b.com`) fails with 400 and leaves the store unchanged. -/
theorem register_email_taken_witness :
    register "k" 30 20 "u2" "h2"
      { email := "A@B.com", password := "pw", display_name := "X",
        bio := none, interests := none } demoStore
      = (demoStore, .error (400, "Email already registered")) :=
  (register_email_taken "k" 30 20 "u2" "h2"
    { email := "A@B.com", password := "pw", display_name := "X",
      bio := none, interests := none } demoStore "u1"
    (mkUser "u1" "a@b.com" "h") demoStore_wellformed
    (by decide) (by decide) (by decide)).1

theorem google_callback_dead_state (secret : String) (ttl now : Nat)
    (nonce : String) (tokSt uiSt : Nat) (guser : GoogleUser) (newId : String)
    (s : Store) (h : redis_get_state s nonce now = none) :
    google_callback secret ttl now nonce tokSt uiSt guser newId s
      = (s, .error (400, "Invalid OAuth state")) := by
  simp [google_callback, h]

theorem github_callback_dead_state (secret : String) (ttl now : Nat)
    (nonce : String) (tokSt : Nat) (accessToken : String) (uSt : Nat)
    (ghUser : GhUser) (eSt : Nat) (emails : List GhEmailEntry)
    (uuidHex newId : String) (s : Store)
    (h : redis_get_state s nonce now = none) :
    github_callback secret ttl now nonce tokSt accessToken uSt ghUser eSt
      emails uuidHex newId s = (s, .error (400, "Invalid OAuth state")) := by
  simp [github_callback, h]

theorem google_callback_live_oauthStates (secret : String) (ttl now : Nat)
    (nonce : String) (tokSt uiSt : Nat) (guser : GoogleUser) (newId : String)
    (s : Store) (p : String) (h : redis_get_state s nonce now = some p) :
    (google_callback secret ttl now nonce tokSt uiSt guser newId s).1.oauthStates
      = adel s.oauthStates nonce := by
  simp only [google_callback, h]
  split
  · rfl
  · split
    · rfl
    · split
      · rfl
      · split
        · rfl
        · rfl

theorem github_callback_live_oauthStates (secret : String) (ttl now : Nat)
    (nonce : String) (tokSt : Nat) (accessToken : String) (uSt : Nat)
    (ghUser : GhUser) (eSt : Nat) (emails : List GhEmailEntry)
    (uuidHex newId : String) (s : Store) (p : String)
    (h : redis_get_state s nonce now = some p) :
    (github_callback secret ttl now nonce tokSt accessToken uSt ghUser eSt
      emails uuidHex newId s).1.oauthStates = adel s.oauthStates nonce := by
  simp only [github_callback, h]
  split
  · rfl
  · split
    · rfl
    · split
      · rfl
      · rfl

/-- Claim C4: OAuth state nonces are single-use. After a login endpoint
stores a nonce at `t0` (600-second TTL): the nonce redeems to its provider
at any time strictly within the TTL and is invisible at or after expiry;
the first callback presenting it (either provider's) deletes it whatever
else happens; a callback presenting a missing or expired nonce returns
400 "Invalid OAuth state" with the store untouched — hence any second
callback on the same nonce, and any callback at or after `t0 + 600`, is
rejected before any provider call or account mutation. -/
theorem oauth_state_single_use (s : Store) (nonce provider : String)
    (t0 : Nat) :
    (∀ t1, t1 < t0 + 600 →
      redis_get_state (oauth_begin s nonce provider t0) nonce t1
        = some provider)
    ∧ (∀ t, t0 + 600 ≤ t →
      redis_get_state (oauth_begin s nonce provider t0) nonce t = none)
    ∧ (∀ t1 secret ttl tokSt uiSt guser newId, t1 < t0 + 600 →
      alookup (google_callback secret ttl t1 nonce tokSt uiSt guser newId
        (oauth_begin s nonce provider t0)).1.oauthStates nonce = none)
    ∧ (∀ t1 secret ttl tokSt accTok uSt ghUser eSt emails uuidHex newId,
      t1 < t0 + 600 →
      alookup (github_callback secret ttl t1 nonce tokSt accTok uSt ghUser
        eSt emails uuidHex newId
        (oauth_begin s nonce provider t0)).1.oauthStates nonce = none)
    ∧ (∀ (s' : Store) t secret ttl tokSt uiSt guser newId,
      redis_get_state s' nonce t = none →
      google_callback secret ttl t nonce tokSt uiSt guser newId s'
        = (s', .error (400, "Invalid OAuth state")))
    ∧ (∀ (s' : Store) t secret ttl tokSt accTok uSt ghUser eSt emails
        uuidHex newId, redis_get_state s' nonce t = none →
      github_callback secret ttl t nonce tokSt accTok uSt ghUser eSt emails
        uuidHex newId s' = (s', .error (400, "Invalid OAuth state")))
    ∧ (∀ t1 secret ttl tokSt uiSt guser newId t2 secret' ttl' tokSt' uiSt'
        guser' newId', t1 < t0 + 600 →
      google_callback secret' ttl' t2 nonce tokSt' uiSt' guser' newId'
        (google_callback secret ttl t1 nonce tokSt uiSt guser newId
          (oauth_begin s nonce provider t0)).1
        = ((google_callback secret ttl t1 nonce tokSt uiSt guser newId
            (oauth_begin s nonce provider t0)).1,
           .error (400, "Invalid OAuth state")))
    ∧ (∀ t1 secret ttl tokSt accTok uSt ghUser eSt emails uuidHex newId t2
        secret' ttl' tokSt' accTok' uSt' ghUser' eSt' emails' uuidHex'
        newId', t1 < t0 + 600 →
      github_callback secret' ttl' t2 nonce tokSt' accTok' uSt' ghUser'
        eSt' emails' uuidHex' newId'
        (github_callback secret ttl t1 nonce tokSt accTok uSt ghUser eSt
          emails uuidHex newId (oauth_begin s nonce provider t0)).1
        = ((github_callback secret ttl t1 nonce tokSt accTok uSt ghUser eSt
            emails uuidHex newId (oauth_begin s nonce provider t0)).1,
           .error (400, "Invalid OAuth state"))) := by
  have hlive : ∀ t1, t1 < t0 + 600 →
      redis_get_state (oauth_begin s nonce provider t0) nonce t1
        = some provider := by
    intro t1 h1
    simp [redis_get_state, oauth_begin, alookup_aset_self, h1]
  have hdead : ∀ t, t0 + 600 ≤ t →
      redis_get_state (oauth_begin s nonce provider t0) nonce t = none := by
    intro t ht
    have : ¬ t < t0 + 600 := by omega
    simp [redis_get_state, oauth_begin, alookup_aset_self, this]
  have hgdel : ∀ t1 secret ttl tokSt uiSt guser newId, t1 < t0 + 600 →
      alookup (google_callback secret ttl t1 nonce tokSt uiSt guser newId
        (oauth_begin s nonce provider t0)).1.oauthStates nonce = none := by
    intro t1 secret ttl tokSt uiSt guser newId h1
    rw [google_callback_live_oauthStates _ _ _ _ _ _ _ _ _ provider
      (hlive t1 h1)]
    exact alookup_adel_self _ _
  have hhdel : ∀ t1 secret ttl tokSt accTok uSt ghUser eSt emails uuidHex
      newId, t1 < t0 + 600 →
      alookup (github_callback secret ttl t1 nonce tokSt accTok uSt ghUser
        eSt emails uuidHex newId
        (oauth_begin s nonce provider t0)).1.oauthStates nonce = none := by
    intro t1 secret ttl tokSt accTok uSt ghUser eSt emails uuidHex newId h1
    rw [github_callback_live_oauthStates _ _ _ _ _ _ _ _ _ _ _ _ _ provider
      (hlive t1 h1)]
    exact alookup_adel_self _ _
  refine ⟨hlive, hdead, hgdel, hhdel,
    fun s' t secret ttl tokSt uiSt guser newId h =>
      google_callback_dead_state _ _ _ _ _ _ _ _ _ h,
    fun s' t secret ttl tokSt accTok uSt ghUser eSt emails uuidHex newId h =>
      github_callback_dead_state _ _ _ _ _ _ _ _ _ _ _ _ _ h,
    ?_, ?_⟩
  · intro t1 secret ttl tokSt uiSt guser newId t2 secret' ttl' tokSt' uiSt'
      guser' newId' h1
    apply google_callback_dead_state
    simp [redis_get_state, hgdel t1 secret ttl tokSt uiSt guser newId h1]
  · intro t1 secret ttl tokSt accTok uSt ghUser eSt emails uuidHex newId t2
      secret' ttl' tokSt' accTok' uSt' ghUser' eSt' emails' uuidHex' newId'
      h1
    apply github_callback_dead_state
    simp [redis_get_state,
      hhdel t1 secret ttl tokSt accTok uSt ghUser eSt emails uuidHex newId h1]

/-- Witness for C4: nonce "n" stored at time 0 redeems at 10, is gone at
600, and a second callback on the redeemed store is rejected 400 with the
store unchanged. -/
theorem oauth_state_single_use_witness :
    redis_get_state (oauth_begin emptyStore "n" "google" 0) "n" 10
      = some "google"
    ∧ redis_get_state (oauth_begin emptyStore "n" "google" 0) "n" 600 = none
    ∧ google_callback "k" 30 20 "n" 500 500 ⟨"", "", none, ""⟩ "u9"
        (google_callback "k" 30 10 "n" 500 500 ⟨"", "", none, ""⟩ "u9"
          (oauth_begin emptyStore "n" "google" 0)).1
      = ((google_callback "k" 30 10 "n" 500 500 ⟨"", "", none, ""⟩ "u9"
          (oauth_begin emptyStore "n" "google" 0)).1,
         .error (400, "Invalid OAuth state")) :=
  ⟨(oauth_state_single_use emptyStore "n" "google" 0).1 10 (by decide),
   (oauth_state_single_use emptyStore "n" "google" 0).2.1 600 (by decide),
   (oauth_state_single_use emptyStore "n" "google" 0).2.2.2.2.2.2.1
     10 "k" 30 500 500 ⟨"", "", none, ""⟩ "u9"
     20 "k" 30 500 500 ⟨"", "", none, ""⟩ "u9" (by decide)⟩

/-- Counterexample to claim C5 as stated: a first primary+verified entry
whose email string is empty does not become the resolved email — the
code's post-loop `if not email` re-test falls through to the profile's
email field. -/
theorem github_email_resolution_counterexample :
    ([{ email := "", primary := true, verified := true }]
      : List GhEmailEntry).find? (fun x => x.primary && x.verified)
      = some { email := "", primary := true, verified := true }
    ∧ resolve_github_email
      [{ email := "", primary := true, verified := true }]
      { id := some 42, email := "c@x.com", name := "", login := none,
        avatar_url := "", bio := "", location := "", blog := "" } "ffff"
      = "c@x.com"
    ∧ ("c@x.com" : String) ≠ lowerStr "" := by
  refine ⟨by decide, by decide, by decide⟩

/-- Claim C5 (amended): GitHub email resolution. The resolved email is
the first emails-list entry flagged both primary and verified
(lowercased) provided its email string is non-empty; when there is no
such entry or its email is empty, the profile's non-empty `email` field
(lowercased); when that too is absent, the placeholder
`gh_<numeric id>@github.noemail` (a fresh UUID hex standing in for a
missing id). Resolution is a total function: the flow never fails on an
absent email. -/
theorem github_email_resolution (emails : List GhEmailEntry) (gh : GhUser)
    (uuidHex : String) (n : Nat) :
    (∀ e, emails.find? (fun x => x.primary && x.verified) = some e →
      e.email ≠ "" →
      resolve_github_email emails gh uuidHex = lowerStr e.email)
    ∧ (∀ e, emails.find? (fun x => x.primary && x.verified) = some e →
      e.email = "" → gh.email ≠ "" →
      resolve_github_email emails gh uuidHex = lowerStr gh.email)
    ∧ (emails.find? (fun x => x.primary && x.verified) = none →
      gh.email ≠ "" →
      resolve_github_email emails gh uuidHex = lowerStr gh.email)
    ∧ (∀ e, emails.find? (fun x => x.primary && x.verified) = some e →
      e.email = "" → gh.email = "" → gh.id = some n →
      resolve_github_email emails gh uuidHex
        = "gh_" ++ natStr n ++ "@github.noemail")
    ∧ (emails.find? (fun x => x.primary && x.verified) = none →
      gh.email = "" → gh.id = some n →
      resolve_github_email emails gh uuidHex
        = "gh_" ++ natStr n ++ "@github.noemail")
    ∧ (emails.find? (fun x => x.primary && x.verified) = none →
      gh.email = "" → gh.id = none →
      resolve_github_email emails gh uuidHex
        = "gh_" ++ uuidHex ++ "@github.noemail") := by
  refine ⟨fun e hf hne => ?_, fun e hf he hg => ?_, fun hf hg => ?_,
    fun e hf he hg hid => ?_, fun hf hg hid => ?_, fun hf hg hid => ?_⟩
  · have h1 : lowerStr e.email ≠ "" :=
      fun h => hne ((lowerStr_eq_empty_iff _).mp h)
    simp [resolve_github_email, hf, h1]
  · have he' : lowerStr e.email = "" := by rw [he]; decide
    have h2 : lowerStr gh.email ≠ "" :=
      fun h => hg ((lowerStr_eq_empty_iff _).mp h)
    simp [resolve_github_email, hf, he', hg, h2]
  · have h2 : lowerStr gh.email ≠ "" :=
      fun h => hg ((lowerStr_eq_empty_iff _).mp h)
    simp [resolve_github_email, hf, hg, h2]
  · have he' : lowerStr e.email = "" := by rw [he]; decide
    simp [resolve_github_email, hf, he', hg, hid]
  · simp [resolve_github_email, hf, hg, hid]
  · simp [resolve_github_email, hf, hg, hid]

/-- Witness for C5, on the spec's example inputs plus the fall-through
case: the primary+verified entry wins; the profile email is the second
fallback (also when the flagged entry's email is empty); the placeholder
carries the numeric id. -/
theorem github_email_resolution_witness :
    resolve_github_email
      [{ email := "a@x.com", primary := false, verified := true },
       { email := "b@x.com", primary := true, verified := true }]
      { id := some 42, email := "", name := "", login := none,
        avatar_url := "", bio := "", location := "", blog := "" } "ffff"
      = "b@x.com"
    ∧ resolve_github_email []
      { id := some 42, email := "c@x.com", name := "", login := none,
        avatar_url := "", bio := "", location := "", blog := "" } "ffff"
      = "c@x.com"
    ∧ resolve_github_email
      [{ email := "", primary := true, verified := true }]
      { id := some 42, email := "c@x.com", name := "", login := none,
        avatar_url := "", bio := "", location := "", blog := "" } "ffff"
      = "c@x.com"
    ∧ resolve_github_email []
      { id := some 42, email := "", name := "", login := none,
        avatar_url := "", bio := "", location := "", blog := "" } "ffff"
      = "gh_42@github.noemail" :=
  ⟨((github_email_resolution
      [{ email := "a@x.com", primary := false, verified := true },
       { email := "b@x.com", primary := true, verified := true }]
      { id := some 42, email := "", name := "", login := none,
        avatar_url := "", bio := "", location := "", blog := "" }
      "ffff" 42).1
      { email := "b@x.com", primary := true, verified := true }
      (by decide) (by decide)).trans (by decide),
   ((github_email_resolution []
      { id := some 42, email := "c@x.com", name := "", login := none,
        avatar_url := "", bio := "", location := "", blog := "" }
      "ffff" 42).2.2.1 (by decide) (by decide)).trans (by decide),
   ((github_email_resolution
      [{ email := "", primary := true, verified := true }]
      { id := some 42, email := "c@x.com", name := "", login := none,
        avatar_url := "", bio := "", location := "", blog := "" }
      "ffff" 42).2.1
      { email := "", primary := true, verified := true }
      (by decide) (by decide) (by decide)).trans (by decide),
   ((github_email_resolution []
      { id := some 42, email := "", name := "", login := none,
        avatar_url := "", bio := "", location := "", blog := "" }
      "ffff" 42).2.2.2.2.1 (by decide) (by decide) (by decide)).trans
      (by decide)⟩

/-- Counterexample to claim C6 as stated: for the GitHub callback, the
merge branch does NOT update bio/location/website. A GitHub profile with
bio "newbio", location "Paris", website "http://blog" merging into the
stored record (bio "bio", location "Berlin", website "http://w") leaves
those three fields unchanged; only avatar_url and updated_at change. -/
theorem oauth_merge_counterexample :
    redis_get_user
      (github_callback "k" 30 10 "n" 200 "tok" 200
        { id := some 7, email := "a@b.com", name := "New Name",
          login := none, avatar_url := "http://new.png", bio := "newbio",
          location := "Paris", blog := "http://blog" }
        500 [] "ffff" "u9"
        { users := [("u1", mkUser "u1" "a@b.com" "h")],
          emailToId := [("a@b.com", "u1")], allIds := ["u1"],
          oauthStates := [("n", ("github", 600))] }).1 "u1"
      = some { mkUser "u1" "a@b.com" "h" with
               avatar_url := "http://new.png", updated_at := "10" }
    ∧ ({ mkUser "u1" "a@b.com" "h" with
          avatar_url := "http://new.png",
          updated_at := "10" } : UserRecord).bio = "bio"
    ∧ "bio" ≠ "newbio"
    ∧ ({ mkUser "u1" "a@b.com" "h" with
          avatar_url := "http://new.png",
          updated_at := "10" } : UserRecord).location = "Berlin"
    ∧ "Berlin" ≠ "Paris" := by
  refine ⟨by decide, by decide, by decide, by decide, by decide⟩

/-- Claim C6 (amended): OAuth merge-by-email frame condition. When the
resolved email matches an existing record, no new record is created and
the record's provider, oauth_id, password_hash, user_id, email and
created_at are unchanged. The Google callback updates avatar_url and
updated_at only when the provider avatar is non-empty and differs, and
otherwise leaves the record entirely unchanged; the GitHub callback
always overwrites avatar_url and updated_at but — contrary to the
original claim — does not update bio, location or website. -/
theorem oauth_merge_frame
    (secret : String) (ttl now : Nat) (nonce prov : String) (s : Store)
    (guser : GoogleUser) (ghUser : GhUser) (accessToken : String)
    (uSt eSt : Nat) (emails : List GhEmailEntry) (uuidHex newId : String)
    (hstate : redis_get_state s nonce now = some prov) :
    (∀ gu, redis_get_user_by_email (redis_delete_state s nonce)
        (lowerStr guser.email) = some gu →
      (guser.picture ≠ "" ∧ gu.avatar_url ≠ guser.picture →
        google_callback secret ttl now nonce 200 200 guser newId s =
          (redis_set_user (redis_delete_state s nonce) gu.user_id
            { gu with avatar_url := guser.picture,
                      updated_at := natStr now },
           .ok (create_access_token secret now ttl gu.user_id)))
      ∧ (¬ (guser.picture ≠ "" ∧ gu.avatar_url ≠ guser.picture) →
        google_callback secret ttl now nonce 200 200 guser newId s =
          (redis_delete_state s nonce,
           .ok (create_access_token secret now ttl gu.user_id))))
    ∧ (∀ hu, accessToken ≠ "" →
      redis_get_user_by_email (redis_delete_state s nonce)
        (resolve_github_email (if eSt = 200 then emails else []) ghUser
          uuidHex) = some hu →
      github_callback secret ttl now nonce 200 accessToken uSt ghUser eSt
        emails uuidHex newId s =
        (redis_set_user (redis_delete_state s nonce) hu.user_id
          { hu with avatar_url := ghUser.avatar_url,
                    updated_at := natStr now },
         .ok (create_access_token secret now ttl hu.user_id)))
    ∧ (∀ (t : Store) (uid w : String) (v : UserRecord), w ≠ uid →
      redis_get_user (redis_set_user t uid v) w = redis_get_user t w)
    ∧ (∀ (v : UserRecord) (a ua : String),
      ({ v with avatar_url := a, updated_at := ua }).provider = v.provider
      ∧ ({ v with avatar_url := a, updated_at := ua }).oauth_id = v.oauth_id
      ∧ ({ v with avatar_url := a, updated_at := ua }).password_hash
          = v.password_hash
      ∧ ({ v with avatar_url := a, updated_at := ua }).user_id = v.user_id
      ∧ ({ v with avatar_url := a, updated_at := ua }).email = v.email
      ∧ ({ v with avatar_url := a, updated_at := ua }).created_at
          = v.created_at) := by
  refine ⟨fun gu hfound => ⟨fun hcond => ?_, fun hcond => ?_⟩,
    fun hu hacc hfound => ?_, fun t uid w v hw => ?_,
    fun v a ua => ⟨rfl, rfl, rfl, rfl, rfl, rfl⟩⟩
  · simp [google_callback, hstate, hfound, hcond.1, hcond.2]
  · simp only [google_callback, hstate]
    simp [hfound, hcond]
  · simp [github_callback, hstate, hacc, hfound]
  · simp only [redis_get_user, redis_set_user]
    exact alookup_aset_ne _ _ _ _ hw

/-- Witness for C6: a Google merge into `u1` updates only avatar_url and
updated_at of the stored record. -/
theorem oauth_merge_frame_witness :
    google_callback "k" 30 10 "n" 200 200
      { email := "A@b.com", sub := "g7", name := some "N",
        picture := "http://new.png" } "u9"
      { users := [("u1", mkUser "u1" "a@b.com" "h")],
        emailToId := [("a@b.com", "u1")], allIds := ["u1"],
        oauthStates := [("n", ("google", 700))] } =
      (redis_set_user
        (redis_delete_state
          { users := [("u1", mkUser "u1" "a@b.com" "h")],
            emailToId := [("a@b.com", "u1")], allIds := ["u1"],
            oauthStates := [("n", ("google", 700))] } "n") "u1"
        { mkUser "u1" "a@b.com" "h" with
            avatar_url := "http://new.png",
            updated_at := natStr 10 },
       .ok (create_access_token "k" 10 30 "u1")) :=
  ((oauth_merge_frame "k" 30 10 "n" "google"
      { users := [("u1", mkUser "u1" "a@b.com" "h")],
        emailToId := [("a@b.com", "u1")], allIds := ["u1"],
        oauthStates := [("n", ("google", 700))] }
      { email := "A@b.com", sub := "g7", name := some "N",
        picture := "http://new.png" }
      { id := none, email := "", name := "", login := none,
        avatar_url := "", bio := "", location := "", blog := "" }
      "tok" 200 200 [] "ffff" "u9" (by decide)).1
    (mkUser "u1" "a@b.com" "h") (by decide)).1 ⟨by decide, by decide⟩

/-- Counterexample to claim C7 as stated: the GitHub callback never
checks the userinfo (profile-fetch) status. With the exchange succeeding
but the profile fetch returning 500, the handler does not abort with 400:
it proceeds, synthesizes a placeholder email from the error-shaped body,
and CREATES a user record. -/
theorem provider_failure_counterexample :
    (github_callback "k" 30 10 "n" 200 "tok" 500
      { id := none, email := "", name := "Ghost", login := none,
        avatar_url := "", bio := "", location := "", blog := "" }
      500 [] "ffff" "u9"
      { users := [], emailToId := [], allIds := [],
        oauthStates := [("n", ("github", 600))] }).2
      = .ok (create_access_token "k" 10 30 "u9")
    ∧ redis_get_user
      (github_callback "k" 30 10 "n" 200 "tok" 500
        { id := none, email := "", name := "Ghost", login := none,
          avatar_url := "", bio := "", location := "", blog := "" }
        500 [] "ffff" "u9"
        { users := [], emailToId := [], allIds := [],
          oauthStates := [("n", ("github", 600))] }).1 "u9"
      = some { user_id := "u9", email := "gh_ffff@github.noemail",
               password_hash := "", display_name := "Ghost", bio := "",
               interests := "", avatar_url := "", location := "",
               website := "", provider := "github", oauth_id := "",
               created_at := "10", updated_at := "10" } := by
  refine ⟨by decide, by decide⟩

/-- Claim C7 (amended): provider failures are fatal and mutate nothing —
for the code-exchange step of both callbacks and for the userinfo step of
the Google callback: a non-200 response there aborts with HTTP 400,
leaving every user record, the email index and the directory set
untouched (only the consumed state nonce is deleted). The GitHub
callback, contrary to the original claim, never checks the userinfo
status (see the counterexample). -/
theorem provider_failure_aborts
    (secret : String) (ttl now : Nat) (nonce prov : String) (s : Store)
    (guser : GoogleUser) (ghUser : GhUser) (accessToken : String)
    (tokSt uiSt uSt eSt : Nat) (emails : List GhEmailEntry)
    (uuidHex newId : String)
    (hstate : redis_get_state s nonce now = some prov) :
    (tokSt ≠ 200 →
      google_callback secret ttl now nonce tokSt uiSt guser newId s
        = (redis_delete_state s nonce,
           .error (400, "Failed to exchange Google code")))
    ∧ (uiSt ≠ 200 →
      google_callback secret ttl now nonce 200 uiSt guser newId s
        = (redis_delete_state s nonce,
           .error (400, "Failed to get Google user info")))
    ∧ (tokSt ≠ 200 →
      github_callback secret ttl now nonce tokSt accessToken uSt ghUser eSt
        emails uuidHex newId s
        = (redis_delete_state s nonce,
           .error (400, "Failed to exchange GitHub code")))
    ∧ (redis_delete_state s nonce).users = s.users
    ∧ (redis_delete_state s nonce).emailToId = s.emailToId
    ∧ (redis_delete_state s nonce).allIds = s.allIds := by
  refine ⟨fun ht => ?_, fun hu => ?_, fun ht => ?_, rfl, rfl, rfl⟩
  · simp [google_callback, hstate, ht]
  · simp [google_callback, hstate, hu]
  · simp [github_callback, hstate, ht]

/-- Witness for C7: a Google userinfo 500 aborts 400 and leaves the
one-user store's records intact. -/
theorem provider_failure_aborts_witness :
    google_callback "k" 30 10 "n" 200 500
      { email := "a@b.com", sub := "g7", name := none, picture := "" } "u9"
      { users := [("u1", mkUser "u1" "a@b.com" "h")],
        emailToId := [("a@b.com", "u1")], allIds := ["u1"],
        oauthStates := [("n", ("google", 700))] }
      = (redis_delete_state
          { users := [("u1", mkUser "u1" "a@b.com" "h")],
            emailToId := [("a@b.com", "u1")], allIds := ["u1"],
            oauthStates := [("n", ("google", 700))] } "n",
         .error (400, "Failed to get Google user info")) :=
  (provider_failure_aborts "k" 30 10 "n" "google"
    { users := [("u1", mkUser "u1" "a@b.com" "h")],
      emailToId := [("a@b.com", "u1")], allIds := ["u1"],
      oauthStates := [("n", ("google", 700))] }
    { email := "a@b.com", sub := "g7", name := none, picture := "" }
    { id := none, email := "", name := "", login := none,
      avatar_url := "", bio := "", location := "", blog := "" }
    "tok" 500 500 200 200 [] "ffff" "u9" (by decide)).2.1 (by decide)

/-- Claim C8: `password_hash` is never serialized to any client-facing
response body: the token envelope (register and login), `GET /users/me`,
`PUT /users/me`, `GET /users/<user_id>`, and every search result omit
the key — for every stored user record. -/
theorem password_hash_never_serialized (u : UserRecord)
    (tr : TokenResponse) (p : UserUpdate) (now : Nat) (s : Store)
    (q uid : String) (v body : List (String × String)) :
    "password_hash" ∉ (TokenResponse.toAssoc tr).map Prod.fst
    ∧ "password_hash" ∉ (get_my_profile u).map Prod.fst
    ∧ "password_hash" ∉ (update_my_profile p u now s).2.map Prod.fst
    ∧ "password_hash" ∉ (public_user_view u).map Prod.fst
    ∧ (v ∈ redis_search_users s q → "password_hash" ∉ v.map Prod.fst)
    ∧ (get_user_profile s uid = .ok body →
       "password_hash" ∉ body.map Prod.fst) := by
  refine ⟨?_, ?_, ?_, ?_, fun hv => ?_, fun hb => ?_⟩
  · simp [TokenResponse.toAssoc]
  · simp [get_my_profile, UserRecord.toAssoc]
  · simp [update_my_profile, apply_user_update, UserRecord.toAssoc]
  · simp [public_user_view]
  · simp only [redis_search_users, List.mem_filterMap] at hv
    obtain ⟨uid', _, hf⟩ := hv
    cases hru : redis_get_user s uid' with
    | none => rw [hru] at hf; simp at hf
    | some u' =>
      rw [hru] at hf
      simp only [] at hf
      split at hf
      · cases hf with
        | refl => simp [public_user_view]
      · cases hf
  · cases hru : redis_get_user s uid with
    | none => simp [get_user_profile, hru] at hb
    | some u' =>
      simp only [get_user_profile, hru, Except.ok.injEq] at hb
      subst hb
      simp [public_user_view]

/-- Witness for C8: the single search hit for "Dem" against `demoStore`
carries no `password_hash` key. -/
theorem password_hash_never_serialized_witness :
    "password_hash" ∉
      (public_user_view (mkUser "u1" "a@b.com" "h")).map Prod.fst :=
  (password_hash_never_serialized (mkUser "u1" "a@b.com" "h")
    { access_token := { sub := some "u1", exp := 0, sig := 0 },
      token_type := "bearer", user_id := "u1", display_name := "Demo",
      email := "a@b.com" }
    { display_name := none, bio := none, interests := none,
      avatar_url := none, location := none, website := none }
    0 demoStore "Dem" "u1"
    (public_user_view (mkUser "u1" "a@b.com" "h")) []).2.2.2.2.1
    (by decide)

/-- Claim C10 (implicit): the provider value stored under a state nonce is
never compared against the handling endpoint — both callbacks behave
identically whatever provider string the nonce maps to, so a nonce issued
by the GitHub login passes the Google callback state check and vice
versa. -/
theorem oauth_state_provider_not_checked
    (users : List (String × UserRecord)) (emailToId : List (String × String))
    (allIds : List String) (rest : List (String × (String × Nat)))
    (nonce p q : String) (e now : Nat) (hnow : now < e)
    (secret : String) (ttl tokSt uiSt : Nat) (guser : GoogleUser)
    (newId : String) (tokSt' : Nat) (accTok : String) (uSt : Nat)
    (ghUser : GhUser) (eSt : Nat) (emails : List GhEmailEntry)
    (uuidHex newId' : String) :
    google_callback secret ttl now nonce tokSt uiSt guser newId
      { users := users, emailToId := emailToId, allIds := allIds,
        oauthStates := (nonce, (p, e)) :: rest }
      = google_callback secret ttl now nonce tokSt uiSt guser newId
        { users := users, emailToId := emailToId, allIds := allIds,
          oauthStates := (nonce, (q, e)) :: rest }
    ∧ github_callback secret ttl now nonce tokSt' accTok uSt ghUser eSt
        emails uuidHex newId'
        { users := users, emailToId := emailToId, allIds := allIds,
          oauthStates := (nonce, (p, e)) :: rest }
      = github_callback secret ttl now nonce tokSt' accTok uSt ghUser eSt
        emails uuidHex newId'
        { users := users, emailToId := emailToId, allIds := allIds,
          oauthStates := (nonce, (q, e)) :: rest } := by
  have hp : redis_get_state
      { users := users, emailToId := emailToId, allIds := allIds,
        oauthStates := (nonce, (p, e)) :: rest } nonce now = some p := by
    simp [redis_get_state, alookup, hnow]
  have hq : redis_get_state
      { users := users, emailToId := emailToId, allIds := allIds,
        oauthStates := (nonce, (q, e)) :: rest } nonce now = some q := by
    simp [redis_get_state, alookup, hnow]
  have hdel : redis_delete_state
      { users := users, emailToId := emailToId, allIds := allIds,
        oauthStates := (nonce, (p, e)) :: rest } nonce
      = redis_delete_state
      { users := users, emailToId := emailToId, allIds := allIds,
        oauthStates := (nonce, (q, e)) :: rest } nonce := by
    simp [redis_delete_state, adel]
  constructor
  · simp only [google_callback, hp, hq]
    rw [hdel]
  · simp only [github_callback, hp, hq]
    rw [hdel]

/-- Witness for C10: a nonce stored by the GitHub login ("github") is
accepted by the Google callback exactly as a Google-stored one would be
(and symmetrically). -/
theorem oauth_state_provider_not_checked_witness :
    google_callback "k" 30 10 "n" 500 500
      { email := "", sub := "", name := none, picture := "" } "u9"
      { users := [], emailToId := [], allIds := [],
        oauthStates := [("n", ("github", 600))] }
      = google_callback "k" 30 10 "n" 500 500
        { email := "", sub := "", name := none, picture := "" } "u9"
        { users := [], emailToId := [], allIds := [],
          oauthStates := [("n", ("google", 600))] } :=
  (oauth_state_provider_not_checked [] [] [] [] "n" "github" "google" 600 10
    (by decide) "k" 30 500 500
    { email := "", sub := "", name := none, picture := "" } "u9"
    500 "tok" 200
    { id := none, email := "", name := "", login := none,
      avatar_url := "", bio := "", location := "", blog := "" }
    200 [] "ffff" "u9").1

end OtherUs
